import Mathlib

/-!
Shallow embedding of the appointment-booking backend (`src/main.py`,
`src/schemas.py`) of the Website Koning API.

Time model: a Python `datetime` is embedded as an integer number of minutes
since an epoch that falls on a Monday at midnight.  Then
  * `date()`    is the floor-division day index,
  * `time()`    is the minute-of-day (`emod 1440`),
  * `weekday()` is the day index modulo 7, with 0 = Monday exactly as in
    Python (the epoch is a Monday).
All requests and stored appointments in the original service live at minute
granularity (30-minute slots, 15-minute buffer), so minutes are the unit.

The Mongo store consulted by `create_appointment` is embedded as an optional
list of appointment documents (`none` models `db is None`); the
`count_documents` query on `start`/`end` becomes a list filter, and
`create_document` an append.  The embedding additionally records the list of
storage operations the handler performs, so that "no store call is made"
facts are statable.
-/

/-- Minutes in a day. -/
def minutesPerDay : Int := 1440

/-- Calendar-date index of a timestamp: the `date()` of a datetime. -/
def dateOf (t : Int) : Int := t.fdiv minutesPerDay

/-- Minute-of-day of a timestamp: the `time()` of a datetime. -/
def timeOf (t : Int) : Int := t.emod minutesPerDay

/-- Weekday of a timestamp, 0 = Monday .. 6 = Sunday (epoch day 0 is a
Monday), matching Python `datetime.weekday()`. -/
def weekdayOf (t : Int) : Int := (dateOf t).emod 7

/-- Module constant `BUSINESS_START = time(10, 0)` as minute-of-day. -/
def BUSINESS_START : Int := 10 * 60

/-- Module constant `BUSINESS_END = time(17, 0)` as minute-of-day. -/
def BUSINESS_END : Int := 17 * 60

/-- Module constant `SLOT_DURATION = timedelta(minutes=30)` in minutes. -/
def SLOT_DURATION : Int := 30

/-- Module constant `BUFFER = timedelta(minutes=15)` in minutes. -/
def BUFFER : Int := 15

/-- Module constant `MAX_CONCURRENT = 2` (capacity). -/
def MAX_CONCURRENT : Nat := 2

/-- Embedding of `within_business_hours(start_dt, end_dt)` from
`src/main.py`: same-day enforcement, weekday at most 4 (Mon-Fri), start at or
after 10:00 and end at or before 17:00. -/
def within_business_hours (start_dt end_dt : Int) : Bool :=
  if dateOf start_dt ≠ dateOf end_dt then false
  else if weekdayOf start_dt > 4 then false
  else decide (timeOf start_dt ≥ BUSINESS_START) && decide (timeOf end_dt ≤ BUSINESS_END)

/-- Embedding of the `Appointment` pydantic model from `src/schemas.py`.
`start`/`end` are the minute timestamps; the remaining fields are contact
data and optional metadata carried along unchanged. -/
structure Appointment where
  name : String
  email : String
  phone : String
  start : Int
  «end» : Int
  note : Option String
  source : Option String
  assigned_to : Option String
deriving DecidableEq, Repr

/-- Result value of the `create_appointment` handler: an `HTTPException`
with its status code and detail string, the degraded acknowledgement
`{"status": "accepted", "stored": stored}`, or the success payload
`{"id": id, "status": "ok"}` (ids are modelled as insertion indices). -/
inductive BookingResult where
  | httpError (status : Nat) (detail : String)
  | accepted (stored : Bool)
  | ok (id : Nat)
deriving DecidableEq, Repr

/-- A storage operation performed by the handler against the `appointment`
collection: the buffered-overlap `count_documents` query, or the
`create_document` insert. -/
inductive StoreOp where
  | countOverlapping (bufferedStart bufferedEnd : Int)
  | insert
deriving DecidableEq, Repr

/-- Detail string of the invalid-range rejection in `create_appointment`. -/
def detailInvalidRange : String := "Eindtijd moet na starttijd liggen"

/-- Detail string of the invalid-duration rejection. -/
def detailInvalidDuration : String := "Alleen afspraken van 30 minuten zijn mogelijk"

/-- Detail string of the outside-business-hours rejection. -/
def detailOutsideHours : String := "Afspraken kunnen alleen ma–vr tussen 10:00 en 17:00"

/-- Detail string of the slot-full rejection. -/
def detailSlotFull : String := "Tijdslot is vol. Kies een ander moment."

/-- The Mongo query filter of `create_appointment`: a stored document with
interval `[s, e]` matches the `$and` of `start < bufferedEnd` and
`end > bufferedStart` (both strict). -/
def overlapsBuffered (bufferedStart bufferedEnd s e : Int) : Bool :=
  decide (s < bufferedEnd) && decide (e > bufferedStart)

/-- The `count_documents` call: how many stored appointments match the
buffered-overlap filter. -/
def overlappingCount (docs : List Appointment) (bufferedStart bufferedEnd : Int) : Nat :=
  (docs.filter fun d => overlapsBuffered bufferedStart bufferedEnd d.start d.«end»).length

/-- Embedding of the `create_appointment` handler from `src/main.py`.
Given the request body and the state of the `appointment` collection
(`none` when `db is None`), it returns the HTTP-level result, the new
collection state, and the list of storage operations performed, following
the source line by line: invalid-range check, fixed-duration check,
business-hours check, degraded no-database acknowledgement, buffered
overlap count against `MAX_CONCURRENT`, and finally the insert. -/
def createAppointment (appt : Appointment) (store : Option (List Appointment)) :
    BookingResult × Option (List Appointment) × List StoreOp :=
  if appt.«end» ≤ appt.start then
    (.httpError 400 detailInvalidRange, store, [])
  else if appt.«end» - appt.start ≠ SLOT_DURATION then
    (.httpError 400 detailInvalidDuration, store, [])
  else if within_business_hours appt.start appt.«end» = false then
    (.httpError 400 detailOutsideHours, store, [])
  else
    match store with
    | none => (.accepted false, none, [])
    | some docs =>
      if overlappingCount docs (appt.start - BUFFER) (appt.«end» + BUFFER) ≥ MAX_CONCURRENT then
        (.httpError 409 detailSlotFull, some docs,
          [.countOverlapping (appt.start - BUFFER) (appt.«end» + BUFFER)])
      else
        (.ok docs.length, some (docs ++ [appt]),
          [.countOverlapping (appt.start - BUFFER) (appt.«end» + BUFFER), .insert])

/-- Helper: full characterization of `within_business_hours`. -/
theorem wbh_spec (s e : Int) :
    within_business_hours s e = true ↔
      (dateOf s = dateOf e ∧ weekdayOf s ≤ 4 ∧
        BUSINESS_START ≤ timeOf s ∧ timeOf e ≤ BUSINESS_END) := by
  unfold within_business_hours
  by_cases h1 : dateOf s = dateOf e
  · by_cases h2 : weekdayOf s > 4
    · simp [h1, h2]
    · simp [h1, h2]
      omega
  · simp [h1]

/-- A concrete valid request: Monday 10:00-10:30 (epoch minutes 600-630). -/
def apptValid : Appointment :=
  ⟨"Noor", "noor@example.com", "0644444444", 600, 630, none, some "website", none⟩

/-- C3: `within_business_hours` returns false on different calendar dates,
false on Saturday/Sunday starts, and otherwise is true iff the start time is
at or after 10:00 and the end time at or before 17:00 (boundaries
inclusive). -/
theorem within_business_hours_correct (s e : Int) :
    within_business_hours s e = true ↔
      (dateOf s = dateOf e ∧ weekdayOf s ≤ 4 ∧
        BUSINESS_START ≤ timeOf s ∧ timeOf e ≤ BUSINESS_END) :=
  wbh_spec s e

/-- Witness for C3 at the concrete Monday 10:00-10:30 slot. -/
theorem within_business_hours_correct_witness :
    within_business_hours 600 630 = true :=
  (within_business_hours_correct 600 630).mpr (by decide)

/-- C1: whenever `create_appointment` changes the store, the request it
persisted has exactly the 30-minute slot duration, start and end on the same
calendar date, a Monday-Friday start, and times within 10:00-17:00; no
insert is reachable otherwise. -/
theorem persisted_appointment_invariants (appt : Appointment)
    (store : Option (List Appointment))
    (h : (createAppointment appt store).2.1 ≠ store) :
    appt.«end» - appt.start = SLOT_DURATION ∧
    dateOf appt.start = dateOf appt.«end» ∧
    weekdayOf appt.start ≤ 4 ∧
    BUSINESS_START ≤ timeOf appt.start ∧
    timeOf appt.«end» ≤ BUSINESS_END := by
  unfold createAppointment at h
  by_cases h1 : appt.«end» ≤ appt.start
  · rw [if_pos h1] at h
    exact absurd rfl h
  rw [if_neg h1] at h
  by_cases h2 : appt.«end» - appt.start ≠ SLOT_DURATION
  · rw [if_pos h2] at h
    exact absurd rfl h
  rw [if_neg h2] at h
  by_cases h3 : within_business_hours appt.start appt.«end» = false
  · rw [if_pos h3] at h
    exact absurd rfl h
  rw [if_neg h3] at h
  have h3t : within_business_hours appt.start appt.«end» = true := by
    cases hb : within_business_hours appt.start appt.«end»
    · exact absurd hb h3
    · rfl
  have hs := (wbh_spec appt.start appt.«end»).mp h3t
  exact ⟨not_not.mp h2, hs.1, hs.2.1, hs.2.2.1, hs.2.2.2⟩

/-- Witness for C1: inserting the valid Monday slot into an empty store. -/
theorem persisted_appointment_invariants_witness :
    apptValid.«end» - apptValid.start = SLOT_DURATION ∧
    dateOf apptValid.start = dateOf apptValid.«end» ∧
    weekdayOf apptValid.start ≤ 4 ∧
    BUSINESS_START ≤ timeOf apptValid.start ∧
    timeOf apptValid.«end» ≤ BUSINESS_END :=
  persisted_appointment_invariants apptValid (some []) (by decide)

/-- C2: for a request that passes the range, duration and business-hours
checks with a configured store, the handler counts stored appointments whose
interval strictly overlaps the buffered window `[start - 15, end + 15]`,
rejects with the 409 slot-full error iff that count reaches
`MAX_CONCURRENT`, and otherwise inserts the appointment and returns its
identifier. -/
theorem capacity_check (appt : Appointment) (docs : List Appointment)
    (h1 : appt.start < appt.«end»)
    (h2 : appt.«end» - appt.start = SLOT_DURATION)
    (h3 : within_business_hours appt.start appt.«end» = true) :
    (overlappingCount docs (appt.start - BUFFER) (appt.«end» + BUFFER) ≥ MAX_CONCURRENT →
      createAppointment appt (some docs) =
        (.httpError 409 detailSlotFull, some docs,
          [.countOverlapping (appt.start - BUFFER) (appt.«end» + BUFFER)])) ∧
    (overlappingCount docs (appt.start - BUFFER) (appt.«end» + BUFFER) < MAX_CONCURRENT →
      createAppointment appt (some docs) =
        (.ok docs.length, some (docs ++ [appt]),
          [.countOverlapping (appt.start - BUFFER) (appt.«end» + BUFFER), .insert])) := by
  have hr : ¬ (appt.«end» ≤ appt.start) := by omega
  refine ⟨fun hc => ?_, fun hc => ?_⟩
  · simp [createAppointment, hr, h2, h3, hc]
  · have hnc : ¬ (overlappingCount docs (appt.start - BUFFER) (appt.«end» + BUFFER) ≥
        MAX_CONCURRENT) := by omega
    simp [createAppointment, hr, h2, h3, hnc]

/-- Witness for C2: the valid Monday slot against an empty store is
admitted and appended. -/
theorem capacity_check_witness :
    createAppointment apptValid (some []) =
      (BookingResult.ok ([] : List Appointment).length, some ([] ++ [apptValid]),
        [StoreOp.countOverlapping (apptValid.start - BUFFER) (apptValid.«end» + BUFFER),
          StoreOp.insert]) :=
  (capacity_check apptValid [] (by decide) (by decide) (by decide)).2 (by decide)

/-- Helper: on a valid request with no database configured, the handler
returns the degraded acknowledgement and performs no storage operation. -/
theorem createAppointment_none_of_valid (appt : Appointment)
    (h1 : appt.start < appt.«end»)
    (h2 : appt.«end» - appt.start = SLOT_DURATION)
    (h3 : within_business_hours appt.start appt.«end» = true) :
    createAppointment appt none = (.accepted false, none, []) := by
  have hr : ¬ (appt.«end» ≤ appt.start) := by omega
  simp [createAppointment, hr, h2, h3]

/-- Sequential processing of a list of booking requests, threading the
store state through `createAppointment` and collecting the results. -/
def processAll (requests : List Appointment) (store : Option (List Appointment)) :
    List BookingResult × Option (List Appointment) :=
  match requests with
  | [] => ([], store)
  | appt :: rest =>
    let step := createAppointment appt store
    let tail := processAll rest step.2.1
    (step.1 :: tail.1, tail.2)

/-- C6: the rejection checks fire in the order invalid range, invalid
duration, outside business hours, then slot full; the first three are
status-400 errors, slot full is status 409, and all four detail strings are
pairwise distinct. -/
theorem rejection_order (appt : Appointment) (store : Option (List Appointment)) :
    (appt.«end» ≤ appt.start →
      createAppointment appt store = (.httpError 400 detailInvalidRange, store, [])) ∧
    (appt.start < appt.«end» → appt.«end» - appt.start ≠ SLOT_DURATION →
      createAppointment appt store = (.httpError 400 detailInvalidDuration, store, [])) ∧
    (appt.start < appt.«end» → appt.«end» - appt.start = SLOT_DURATION →
      within_business_hours appt.start appt.«end» = false →
      createAppointment appt store = (.httpError 400 detailOutsideHours, store, [])) ∧
    (∀ docs, store = some docs → appt.start < appt.«end» →
      appt.«end» - appt.start = SLOT_DURATION →
      within_business_hours appt.start appt.«end» = true →
      overlappingCount docs (appt.start - BUFFER) (appt.«end» + BUFFER) ≥ MAX_CONCURRENT →
      createAppointment appt store =
        (.httpError 409 detailSlotFull, some docs,
          [.countOverlapping (appt.start - BUFFER) (appt.«end» + BUFFER)])) ∧
    (detailInvalidRange ≠ detailInvalidDuration ∧
      detailInvalidRange ≠ detailOutsideHours ∧
      detailInvalidDuration ≠ detailOutsideHours ∧
      detailInvalidRange ≠ detailSlotFull ∧
      detailInvalidDuration ≠ detailSlotFull ∧
      detailOutsideHours ≠ detailSlotFull) := by
  constructor
  · intro hr
    simp [createAppointment, hr]
  constructor
  · intro hlt hd
    have hr : ¬ (appt.«end» ≤ appt.start) := by omega
    simp [createAppointment, hr, hd]
  constructor
  · intro hlt hd hb
    have hr : ¬ (appt.«end» ≤ appt.start) := by omega
    simp [createAppointment, hr, hd, hb]
  constructor
  · intro docs hst hlt hd hb hc
    subst hst
    have hr : ¬ (appt.«end» ≤ appt.start) := by omega
    simp [createAppointment, hr, hd, hb, hc]
  · decide

/-- Witness for C6 at a request whose end precedes its start. -/
theorem rejection_order_witness :
    createAppointment
        ⟨"Kim", "kim@example.com", "0655555555", 630, 600, none, none, none⟩ none =
      (.httpError 400 detailInvalidRange, none, []) :=
  (rejection_order ⟨"Kim", "kim@example.com", "0655555555", 630, 600, none, none, none⟩
    none).1 (by decide)

/-- C7: every rejection leaves the store unchanged and performs no insert;
in particular a request lasting 31 minutes is rejected as invalid duration
with no storage operation of any kind performed. -/
theorem no_write_on_rejection (appt : Appointment) (store : Option (List Appointment)) :
    (∀ status detail, (createAppointment appt store).1 = .httpError status detail →
      (createAppointment appt store).2.1 = store ∧
      StoreOp.insert ∉ (createAppointment appt store).2.2) ∧
    (appt.«end» - appt.start = 31 →
      createAppointment appt store = (.httpError 400 detailInvalidDuration, store, [])) := by
  constructor
  · intro status detail hres
    by_cases h1 : appt.«end» ≤ appt.start
    · simp [createAppointment, h1]
    by_cases h2 : appt.«end» - appt.start ≠ SLOT_DURATION
    · simp [createAppointment, h1, h2]
    by_cases h3 : within_business_hours appt.start appt.«end» = false
    · simp [createAppointment, h1, h2, h3]
    cases store with
    | none => simp [createAppointment, h1, h2, h3]
    | some docs =>
      by_cases hc : overlappingCount docs (appt.start - BUFFER) (appt.«end» + BUFFER) ≥
          MAX_CONCURRENT
      · simp [createAppointment, h1, h2, h3, hc]
      · exfalso
        simp [createAppointment, h1, h2, h3, hc] at hres
  · intro h31
    have h1 : ¬ (appt.«end» ≤ appt.start) := by omega
    have hd : appt.«end» - appt.start ≠ SLOT_DURATION := by
      rw [h31]; decide
    simp [createAppointment, h1, hd]

/-- Witness for C7 at a 31-minute request against an empty configured
store. -/
theorem no_write_on_rejection_witness :
    createAppointment
        ⟨"Lou", "lou@example.com", "0666666666", 600, 631, none, none, none⟩ (some []) =
      (.httpError 400 detailInvalidDuration, some [], []) :=
  (no_write_on_rejection ⟨"Lou", "lou@example.com", "0666666666", 600, 631, none, none, none⟩
    (some [])).2 (by decide)

/-- C8: with no persistence backend configured, a request that passes
validation is answered with the accepted-but-not-stored acknowledgement
instead of an error. -/
theorem degraded_no_store (appt : Appointment)
    (h1 : appt.start < appt.«end»)
    (h2 : appt.«end» - appt.start = SLOT_DURATION)
    (h3 : within_business_hours appt.start appt.«end» = true) :
    createAppointment appt none = (.accepted false, none, []) :=
  createAppointment_none_of_valid appt h1 h2 h3

/-- Witness for C8 at the valid Monday slot. -/
theorem degraded_no_store_witness :
    createAppointment apptValid none = (.accepted false, none, []) :=
  degraded_no_store apptValid (by decide) (by decide) (by decide)

/-- Helper: with no database, a valid request is acknowledged unchanged, so
any number of repetitions of it are all acknowledged. -/
theorem processAll_replicate_none (appt : Appointment)
    (h : createAppointment appt none = (.accepted false, none, [])) :
    ∀ n, processAll (List.replicate n appt) none =
      (List.replicate n (BookingResult.accepted false), none) := by
  intro n
  induction n with
  | zero => rfl
  | succ k ih => simp [List.replicate_succ, processAll, h, ih]

/-- C10: with `db is None` the three validation checks still run and reject
with status 400, no overlap or capacity query is ever issued, every valid
request is acknowledged with `stored = false`, and arbitrarily many
repetitions of the same valid slot are all acknowledged with no slot-full
rejection. -/
theorem no_db_no_capacity_check (appt : Appointment) (n : Nat) :
    (¬ (appt.start < appt.«end» ∧ appt.«end» - appt.start = SLOT_DURATION ∧
        within_business_hours appt.start appt.«end» = true) →
      ∃ detail, createAppointment appt none = (.httpError 400 detail, none, [])) ∧
    ((appt.start < appt.«end» ∧ appt.«end» - appt.start = SLOT_DURATION ∧
        within_business_hours appt.start appt.«end» = true) →
      createAppointment appt none = (.accepted false, none, []) ∧
      processAll (List.replicate n appt) none =
        (List.replicate n (BookingResult.accepted false), none)) := by
  constructor
  · intro hval
    by_cases h1 : appt.«end» ≤ appt.start
    · exact ⟨detailInvalidRange, by simp [createAppointment, h1]⟩
    by_cases h2 : appt.«end» - appt.start = SLOT_DURATION
    · by_cases h3 : within_business_hours appt.start appt.«end» = true
      · exact absurd ⟨by omega, h2, h3⟩ hval
      · have h3f : within_business_hours appt.start appt.«end» = false := by
          simpa using h3
        exact ⟨detailOutsideHours, by simp [createAppointment, h1, h2, h3f]⟩
    · exact ⟨detailInvalidDuration, by simp [createAppointment, h1, h2]⟩
  · rintro ⟨h1, h2, h3⟩
    have hbase := createAppointment_none_of_valid appt h1 h2 h3
    exact ⟨hbase, processAll_replicate_none appt hbase n⟩

/-- Witness for C10: three repeated requests for the same valid Monday slot
are all acknowledged without storage. -/
theorem no_db_no_capacity_check_witness :
    createAppointment apptValid none = (.accepted false, none, []) ∧
    processAll (List.replicate 3 apptValid) none =
      (List.replicate 3 (BookingResult.accepted false), none) :=
  (no_db_no_capacity_check apptValid 3).2 ⟨by decide, by decide, by decide⟩

/-- The admission decision of `create_appointment` taken in isolation: the
`count_documents` read compared against `MAX_CONCURRENT`.  In the source it
is one of two separate, unsynchronized storage calls (the other being the
`create_document` insert), so two racing requests may both evaluate it
against the same store state before either insert lands. -/
def admissionAllowed (appt : Appointment) (docs : List Appointment) : Bool :=
  decide (overlappingCount docs (appt.start - BUFFER) (appt.«end» + BUFFER) < MAX_CONCURRENT)

/-- The `create_document` insert of `create_appointment` taken in
isolation. -/
def insertAppointment (appt : Appointment) (docs : List Appointment) : List Appointment :=
  docs ++ [appt]

/-- How many stored appointments have a buffered window
`[start - BUFFER, end + BUFFER]` containing the instant `t`. -/
def bufferedCountAt (docs : List Appointment) (t : Int) : Nat :=
  (docs.filter fun d =>
    decide (d.start - BUFFER ≤ t) && decide (t ≤ d.«end» + BUFFER)).length

/-- An already stored Monday 10:00-10:30 appointment. -/
def apptStored : Appointment :=
  ⟨"Eva", "eva@example.com", "0611111111", 600, 630, none, some "website", none⟩

/-- First racing request for the same Monday 10:00-10:30 slot. -/
def apptRacerA : Appointment :=
  ⟨"Ada", "ada@example.com", "0622222222", 600, 630, none, some "website", none⟩

/-- Second racing request for the same Monday 10:00-10:30 slot. -/
def apptRacerB : Appointment :=
  ⟨"Bob", "bob@example.com", "0633333333", 600, 630, none, some "website", none⟩

/-- C4 (refuting trace): with one appointment already stored, the
interleaving check-A, check-B, insert-A, insert-B of the handler's own two
storage steps admits both racers — each read counts only 1 < 2 — leaving
three appointments whose buffered windows all contain instant 615, which
exceeds `MAX_CONCURRENT`; had the decision been atomic, the second racer
would have seen the first insert and been rejected slot-full, as the last
conjunct shows. -/
theorem check_then_act_race :
    admissionAllowed apptRacerA [apptStored] = true ∧
    admissionAllowed apptRacerB [apptStored] = true ∧
    bufferedCountAt
      (insertAppointment apptRacerB (insertAppointment apptRacerA [apptStored])) 615 = 3 ∧
    MAX_CONCURRENT < 3 ∧
    (createAppointment apptRacerB (some (insertAppointment apptRacerA [apptStored]))).1 =
      BookingResult.httpError 409 detailSlotFull := by
  decide

/-- The overlap test exactly as implemented, as a function of the raw
candidate window `[cs, ce]` and a stored interval `[s, e]`: the stored
interval strictly overlaps the candidate window padded by `BUFFER` on each
side. -/
def codeOverlapTest (cs ce s e : Int) : Bool :=
  overlapsBuffered (cs - BUFFER) (ce + BUFFER) s e

/-- Modelled from the spec: pad every stored appointment by `BUFFER/2` on
each side and test strict overlap against the raw candidate window; both
inequalities are scaled by 2 so the half-buffer stays an integer. -/
def halfPaddedOverlapTest (cs ce s e : Int) : Bool :=
  decide (2 * s - BUFFER < 2 * ce) && decide (2 * e + BUFFER > 2 * cs)

/-- Modelled from the spec as amended: pad every stored appointment by the
full `BUFFER` on each side and test strict overlap against the raw
candidate window. -/
def fullPaddedOverlapTest (cs ce s e : Int) : Bool :=
  decide (s - BUFFER < ce) && decide (e + BUFFER > cs)

/-- C5 (counterexample): the implemented test is not equivalent to padding
stored appointments by `BUFFER/2`: a stored interval `[40, 70]` against the
candidate `[0, 30]` is counted by the code (40 < 30 + 15) but lies outside
the half-padded comparison (40 - 7.5 > 30). -/
theorem half_pad_not_equivalent :
    ¬ ∀ cs ce s e : Int, codeOverlapTest cs ce s e = halfPaddedOverlapTest cs ce s e := by
  intro h
  exact absurd (h 0 30 40 70) (by decide)

/-- C5 (amended): the implemented test — stored interval strictly
overlapping the candidate window padded by `BUFFER` on each side — is
equivalent to padding every stored appointment by the full `BUFFER` on each
side and testing strict overlap against the raw candidate window. -/
theorem full_pad_equivalent (cs ce s e : Int) :
    codeOverlapTest cs ce s e = fullPaddedOverlapTest cs ce s e := by
  simp only [codeOverlapTest, fullPaddedOverlapTest, overlapsBuffered]
  congr 1
  · rw [decide_eq_decide]
    omega
  · rw [decide_eq_decide]
    omega

/-- The SMTP environment variables read at module load in `src/main.py`:
`none` models an unset variable, `some s` a set one (possibly empty, which
Python treats as falsy). -/
structure SmtpEnvVars where
  host : Option String
  user : Option String
  passwd : Option String
  fromVar : Option String
deriving Repr

/-- Python truthiness of an optional environment string: unset or empty is
falsy. -/
def truthy : Option String → Bool
  | none => false
  | some s => !s.isEmpty

/-- The computed `SMTP_FROM` value:
`os.getenv("SMTP_FROM", SMTP_USER or "no-reply@websitekoning.com")`. -/
def smtpFrom (env : SmtpEnvVars) : String :=
  env.fromVar.getD
    (if truthy env.user then env.user.getD "" else "no-reply@websitekoning.com")

/-- The guard `SMTP_HOST and SMTP_FROM` at the top of `send_email`. -/
def smtpConfigured (env : SmtpEnvVars) : Bool :=
  truthy env.host && !(smtpFrom env).isEmpty

/-- Outcomes of the individual `smtplib` calls inside the `try` block of
`send_email`, supplied by the outside world; `Except.error` models the call
raising. -/
structure DeliveryEnv where
  connect : Except String Unit
  starttls : Except String Unit
  login : Except String Unit
  sendmail : Except String Unit

/-- The body of the `try` block of `send_email`: connect, `starttls`, log
in when both `SMTP_USER` and `SMTP_PASS` are truthy, then `sendmail`; the
first raising call aborts the rest. -/
def tryDeliver (env : SmtpEnvVars) (d : DeliveryEnv) : Except String Unit := do
  d.connect
  d.starttls
  if truthy env.user && truthy env.passwd then d.login else pure ()
  d.sendmail

/-- What `send_email` did: skipped with a console log because SMTP is not
configured, delivered the message, or caught a delivery failure and only
logged it. -/
inductive SendOutcome where
  | skippedUnconfigured
  | sent (fromAddr : String) (recipients : List String) (subject body : String)
  | loggedError (msg : String)
deriving DecidableEq, Repr

/-- Embedding of `send_email(subject, body, to_addrs)` from `src/main.py`.
The `Except String` layer is raising an exception to the caller: the guard
and the `try`/`except Exception` wrapper mean no input ever produces an
`Except.error`. -/
def send_email (env : SmtpEnvVars) (d : DeliveryEnv)
    (subject body : String) (toAddrs : List String) : Except String SendOutcome :=
  if !(smtpConfigured env) then
    .ok .skippedUnconfigured
  else
    match tryDeliver env d with
    | .ok _ => .ok (.sent (smtpFrom env) toAddrs subject body)
    | .error e => .ok (.loggedError e)

/-- C9: `send_email` never raises to its caller: every input yields a
normal return; when SMTP is unconfigured it returns after logging without
attempting delivery, and when a configured delivery raises, the failure is
caught and merely logged. -/
theorem send_email_never_raises (env : SmtpEnvVars) (d : DeliveryEnv)
    (subject body : String) (toAddrs : List String) :
    (∃ r, send_email env d subject body toAddrs = Except.ok r) ∧
    (smtpConfigured env = false →
      send_email env d subject body toAddrs = Except.ok SendOutcome.skippedUnconfigured) ∧
    (∀ e, smtpConfigured env = true → tryDeliver env d = Except.error e →
      send_email env d subject body toAddrs = Except.ok (SendOutcome.loggedError e)) := by
  by_cases hc : smtpConfigured env = true
  · refine ⟨?_, ?_, ?_⟩
    · cases ht : tryDeliver env d with
      | ok u => exact ⟨.sent (smtpFrom env) toAddrs subject body, by simp [send_email, hc, ht]⟩
      | error e => exact ⟨.loggedError e, by simp [send_email, hc, ht]⟩
    · intro hf
      rw [hc] at hf
      cases hf
    · intro e _ ht
      simp [send_email, hc, ht]
  · have hf : smtpConfigured env = false := by
      simpa using hc
    exact ⟨⟨.skippedUnconfigured, by simp [send_email, hf]⟩,
      fun _ => by simp [send_email, hf],
      fun e hct _ => absurd hct hc⟩

/-- Witness for C9: with no SMTP host configured and all delivery calls
healthy, the mail is skipped with a log line. -/
theorem send_email_never_raises_witness :
    send_email ⟨none, none, none, none⟩ ⟨Except.ok (), Except.ok (), Except.ok (), Except.ok ()⟩
        "subject" "body" [] =
      Except.ok SendOutcome.skippedUnconfigured :=
  (send_email_never_raises ⟨none, none, none, none⟩
    ⟨Except.ok (), Except.ok (), Except.ok (), Except.ok ()⟩ "subject" "body" []).2.1 (by decide)
